import Mathlib

/-!
Verification of the AliceVision meshing and LDR-to-HDR sampling pipeline drivers
(`main_meshing.cpp`, `main_LdrToHdrSampling.cpp`) against their natural-language
specification.  The C++ drivers are shallowly embedded: external collaborators
(SfM data loading, sample extraction, the Delaunay graph-cut core) appear as
input data or abstract function parameters, and the drivers' control flow is
translated into pure Lean functions that record the observable events
(files read or written) and the terminal outcome (success or a specific error).
-/

/-- Partitioning modes of the meshing driver (`EPartitioningMode`). -/
inductive EPartitioningMode
  | ePartitioningUndefined
  | ePartitioningSingleBlock
  | ePartitioningAuto
deriving DecidableEq, Repr

/-- String parsing of the partitioning mode (`EPartitioning_stringToEnum`):
unknown strings map to the undefined sentinel. -/
def EPartitioning_stringToEnum (s : String) : EPartitioningMode :=
  if s = "singleBlock" then EPartitioningMode.ePartitioningSingleBlock
  else if s = "auto" then EPartitioningMode.ePartitioningAuto
  else EPartitioningMode.ePartitioningUndefined

/-- Repartition modes of the meshing driver (`ERepartitionMode`). -/
inductive ERepartitionMode
  | eRepartitionUndefined
  | eRepartitionMultiResolution
deriving DecidableEq, Repr

/-- String parsing of the repartition mode (`ERepartitionMode_stringToEnum`):
unknown strings map to the undefined sentinel. -/
def ERepartitionMode_stringToEnum (s : String) : ERepartitionMode :=
  if s = "multiResolution" then ERepartitionMode.eRepartitionMultiResolution
  else ERepartitionMode.eRepartitionUndefined

/-- Observable side effects of a meshing run, in program order. -/
inductive MeshingEvent
  | readSfmData
  | createOutDirectory
  | estimateSpace
  | writeRawDensePointCloud
  | writeDenseSfMData
  | writeObjMesh
deriving DecidableEq, Repr

/-- Terminal failures of the meshing driver: the two logged `EXIT_FAILURE`
returns and the six thrown exceptions of `aliceVision_main`. -/
inductive MeshingError
  | invalidInputOptions
  | sfmDataNotReadable
  | partitioningAutoNotImplemented
  | noCameraToMakeReconstruction
  | partitioningModeNotDefined
  | repartitionModeNotDefined
  | noValidMeshGenerated
  | visibilitiesNotInitialized
deriving DecidableEq, Repr

/-- Message of the exception thrown for each error; `none` for the two
failures that are logged and returned rather than thrown. -/
def MeshingError.thrownMessage : MeshingError → Option String
  | MeshingError.partitioningAutoNotImplemented =>
      some ("Meshing mode: \x27multiResolution\x27, partitioning: \x27auto\x27 is not yet implemented.")
  | MeshingError.noCameraToMakeReconstruction => some ("No camera to make the reconstruction")
  | MeshingError.partitioningModeNotDefined => some ("Partitioning mode is not defined")
  | MeshingError.repartitionModeNotDefined => some ("Repartition mode is not defined")
  | MeshingError.noValidMeshGenerated => some ("No valid mesh was generated.")
  | MeshingError.visibilitiesNotInitialized => some ("Points visibilities data has not been initialized.")
  | _ => none

/-- Configuration errors in the spec's taxonomy: the unsupported or
undefined mode combinations (the invalid-input-options check and the three
mode-switch throws), as opposed to input errors (unreadable dataset) and
domain errors. -/
def MeshingError.isConfigurationError : MeshingError → Bool
  | MeshingError.invalidInputOptions => true
  | MeshingError.partitioningAutoNotImplemented => true
  | MeshingError.partitioningModeNotDefined => true
  | MeshingError.repartitionModeNotDefined => true
  | _ => false

/-- A 3D point; coordinates are abstract (never computed on). -/
abbrev Point3d := Int × Int × Int

/-- The mesh handed back by the graph-cut core: vertex positions and
triangles (`mesh::Mesh` as used by the driver). -/
structure Mesh where
  pts : List Point3d
  tris : List (Nat × Nat × Nat)
deriving DecidableEq, Repr

/-- Inputs of one meshing run.  External computations that the driver merely
invokes are represented by their results: `sfmLoadOk` is the outcome of
`sfmDataIO::Load`, `camsIntersectingHexah` the result of
`findCamsWhichIntersectsHexahedron` on the estimated hexahedron, `meshResult`
the mesh produced by the Delaunay graph cut and post-processing (`none` for a
null pointer), and `ptsCamsResult` the per-vertex visibility lists. -/
structure MeshingInputs where
  depthMapsFolder : String
  partitioningMode : EPartitioningMode
  repartitionMode : ERepartitionMode
  sfmLoadOk : Bool
  nbCameras : Nat
  camsIntersectingHexah : List Nat
  saveRawDensePointCloud : Bool
  meshResult : Option Mesh
  ptsCamsResult : List (List Nat)
deriving DecidableEq, Repr

/-- Shallow embedding of `aliceVision_main` of `main_meshing.cpp` (after
command-line parsing): returns the list of observable events in program order
and the terminal error, if any.  Mirrors the source: the depth-maps/mode
consistency check, loading the SfM scene, ensuring the output directory, the
repartition/partitioning switch (estimating the bounding volume, selecting
cameras, optionally saving the raw dense point cloud inside the single-block
branch), the final mesh and visibility checks, and the two output writes. -/
def meshingMain (inp : MeshingInputs) : List MeshingEvent × Option MeshingError :=
  if inp.depthMapsFolder.isEmpty ∧
     ¬(inp.repartitionMode = ERepartitionMode.eRepartitionMultiResolution ∧
       inp.partitioningMode = EPartitioningMode.ePartitioningSingleBlock) then
    ([], some MeshingError.invalidInputOptions)
  else
    let meshingFromDepthMaps : Bool := ! inp.depthMapsFolder.isEmpty
    if inp.sfmLoadOk = false then
      ([MeshingEvent.readSfmData], some MeshingError.sfmDataNotReadable)
    else
      let ev0 : List MeshingEvent := [MeshingEvent.readSfmData, MeshingEvent.createOutDirectory]
      match inp.repartitionMode with
      | ERepartitionMode.eRepartitionMultiResolution =>
        match inp.partitioningMode with
        | EPartitioningMode.ePartitioningAuto =>
            (ev0, some MeshingError.partitioningAutoNotImplemented)
        | EPartitioningMode.ePartitioningSingleBlock =>
            let ev1 := ev0 ++ [MeshingEvent.estimateSpace]
            let cams : List Nat :=
              if meshingFromDepthMaps then inp.camsIntersectingHexah
              else List.range inp.nbCameras
            if cams = [] then (ev1, some MeshingError.noCameraToMakeReconstruction)
            else
              let ev2 := if inp.saveRawDensePointCloud then
                  ev1 ++ [MeshingEvent.writeRawDensePointCloud] else ev1
              match inp.meshResult with
              | none => (ev2, some MeshingError.noValidMeshGenerated)
              | some m =>
                if m.pts = [] ∨ m.tris = [] then
                  (ev2, some MeshingError.noValidMeshGenerated)
                else if inp.ptsCamsResult = [] then
                  (ev2, some MeshingError.visibilitiesNotInitialized)
                else
                  (ev2 ++ [MeshingEvent.writeDenseSfMData, MeshingEvent.writeObjMesh], none)
        | EPartitioningMode.ePartitioningUndefined =>
            (ev0, some MeshingError.partitioningModeNotDefined)
      | ERepartitionMode.eRepartitionUndefined =>
          (ev0, some MeshingError.repartitionModeNotDefined)

/-- A meshing input that selects partitioning mode auto together with a
depth-maps folder, a readable dataset and a perfectly good reconstruction. -/
def meshingAutoInput : MeshingInputs :=
  { depthMapsFolder := "depthMaps"
    partitioningMode := EPartitioning_stringToEnum ("auto")
    repartitionMode := ERepartitionMode_stringToEnum ("multiResolution")
    sfmLoadOk := true
    nbCameras := 1
    camsIntersectingHexah := [0]
    saveRawDensePointCloud := false
    meshResult := some { pts := [(0, 0, 0)], tris := [(0, 0, 0)] }
    ptsCamsResult := [[0]] }

/-- A meshing input in SfM-only mode (no depth-maps folder) whose single
camera does not intersect the estimated hexahedron. -/
def meshingSfmNoIntersectInput : MeshingInputs :=
  { depthMapsFolder := ""
    partitioningMode := EPartitioningMode.ePartitioningSingleBlock
    repartitionMode := ERepartitionMode.eRepartitionMultiResolution
    sfmLoadOk := true
    nbCameras := 1
    camsIntersectingHexah := []
    saveRawDensePointCloud := false
    meshResult := some { pts := [(0, 0, 0)], tris := [(0, 0, 0)] }
    ptsCamsResult := [[0]] }

/-- A meshing input in depth-maps mode whose set of cameras intersecting the
estimated hexahedron is empty. -/
def meshingDepthNoCamInput : MeshingInputs :=
  { depthMapsFolder := "depthMaps"
    partitioningMode := EPartitioningMode.ePartitioningSingleBlock
    repartitionMode := ERepartitionMode.eRepartitionMultiResolution
    sfmLoadOk := true
    nbCameras := 1
    camsIntersectingHexah := []
    saveRawDensePointCloud := false
    meshResult := some { pts := [(0, 0, 0)], tris := [(0, 0, 0)] }
    ptsCamsResult := [[0]] }

/-- A meshing input that reaches output generation but whose mesh has no
triangles. -/
def meshingEmptyTrisInput : MeshingInputs :=
  { depthMapsFolder := ""
    partitioningMode := EPartitioningMode.ePartitioningSingleBlock
    repartitionMode := ERepartitionMode.eRepartitionMultiResolution
    sfmLoadOk := true
    nbCameras := 1
    camsIntersectingHexah := []
    saveRawDensePointCloud := false
    meshResult := some { pts := [(0, 0, 0)], tris := [] }
    ptsCamsResult := [[0]] }

/-- A view inside an exposure group: image path and exposure setting (the
two fields the sampling driver reads from `sfmData::View`). -/
structure View where
  imagePath : String
  exposure : Int
deriving DecidableEq, Repr

/-- Modelled from the spec: the per-camera radiance/intensity statistics of
one sample (`hdr::PixelDescription`); the statistics are opaque scalars
(written and read back verbatim), modelled as integers. -/
structure PixelDescription where
  exposure : Int
  mean : Int
  variance : Int
deriving DecidableEq, Repr

/-- Modelled from the spec: one extracted stable sample
(`hdr::ImageSample`): a position and per-camera statistics. -/
structure ImageSample where
  x : Int
  y : Int
  descriptions : List PixelDescription
deriving DecidableEq, Repr

/-- Modelled from the spec: serialized form of one per-camera statistics
record (three scalars, fixed format). -/
def writeDescription (d : PixelDescription) : List Int :=
  [d.exposure, d.mean, d.variance]

/-- Modelled from the spec: serialized form of one sample record — the
position, the number of per-camera records, then the records themselves
(the stream insertion operator for `hdr::ImageSample`, which is not part of
the sources under verification). -/
def writeSample (s : ImageSample) : List Int :=
  s.x :: s.y :: (s.descriptions.length : Int) :: s.descriptions.flatMap writeDescription

/-- Modelled from the spec: a samples file is a record count followed by one
fixed-format record per sample (the driver writes `out_samples.size()` and
then streams each sample). -/
def writeSamples (l : List ImageSample) : List Int :=
  (l.length : Int) :: l.flatMap writeSample

/-- Modelled from the spec: deserialization of a run of per-camera records;
returns the records and the remaining stream. -/
def readDescriptions : Nat → List Int → Option (List PixelDescription × List Int)
  | 0, rest => some ([], rest)
  | k + 1, e :: m :: v :: rest =>
      match readDescriptions k rest with
      | some (ds, r) => some ({ exposure := e, mean := m, variance := v } :: ds, r)
      | none => none
  | _ + 1, _ => none

/-- Modelled from the spec: deserialization of one sample record. -/
def readSample : List Int → Option (ImageSample × List Int)
  | x :: y :: cnt :: rest =>
      if cnt < 0 then none
      else
        match readDescriptions cnt.toNat rest with
        | some (ds, r) => some ({ x := x, y := y, descriptions := ds }, r)
        | none => none
  | _ => none

/-- Modelled from the spec: deserialization of a run of sample records. -/
def readSamplesAux : Nat → List Int → Option (List ImageSample × List Int)
  | 0, rest => some ([], rest)
  | k + 1, data =>
      match readSample data with
      | some (s, rest) =>
          match readSamplesAux k rest with
          | some (ss, r) => some (s :: ss, r)
          | none => none
      | none => none

/-- Modelled from the spec: deserialization of a samples file — the record
count, then that many records. -/
def readSamples : List Int → Option (List ImageSample)
  | cnt :: rest =>
      if cnt < 0 then none
      else
        match readSamplesAux cnt.toNat rest with
        | some (ss, _) => some ss
        | none => none
  | [] => none

/-- Result of the bracket-consistency check of the sampling driver (the
`sizeOfGroups` set inspection). -/
inductive GroupSizeCheck
  | noMultiBracketing
  | proceed (usedNbBrackets : Nat)
  | inconsistent
deriving DecidableEq, Repr

/-- The `sizeOfGroups` check of `main_LdrToHdrSampling.cpp`: collect the set
of distinct group sizes; exactly one distinct size means consistent
bracketing (size one meaning no multi-bracketing), anything else is an
error. -/
def checkGroupSizes (groups : List (List View)) : GroupSizeCheck :=
  match (groups.map List.length).dedup with
  | [n] =>
      if n = 1 then GroupSizeCheck.noMultiBracketing else GroupSizeCheck.proceed n
  | _ => GroupSizeCheck.inconsistent

/-- The range-selection logic of `main_LdrToHdrSampling.cpp`: a `rangeStart`
of -1 selects all groups; otherwise a negative start or size, or a start
beyond the group count, is rejected, and an overshooting size is clamped.
Returns the start index and count of the groups to process. -/
def computeRange (rangeStart rangeSize : Int) (nbGroups : Nat) : Option (Nat × Nat) :=
  if rangeStart ≠ -1 then
    if rangeStart < 0 ∨ rangeSize < 0 ∨ rangeStart > (nbGroups : Int) then none
    else if rangeStart + rangeSize > (nbGroups : Int) then
      some (rangeStart.toNat, nbGroups - rangeStart.toNat)
    else some (rangeStart.toNat, rangeSize.toNat)
  else some (0, nbGroups)

/-- Exit status of the sampling driver. -/
inductive SamplingExit
  | success
  | failure
deriving DecidableEq, Repr

/-- Observable outcome of a sampling run: the group indices whose sample
extraction failed (logged errors), the files written (group index and
serialized content), and the exit status. -/
structure SamplingResult where
  errorLogs : List Nat
  writtenFiles : List (Nat × List Int)
  exit : SamplingExit
deriving DecidableEq, Repr

/-- The per-group loop of `main_LdrToHdrSampling.cpp`: for each group index
in the selected range, extract samples (logging an error on failure but not
skipping the write), abort the whole run if the samples file cannot be
opened, and otherwise write the record count followed by the records. -/
def processGroups (extract : Nat → Bool × List ImageSample) (fileOpenOk : Nat → Bool) :
    Nat → Nat → SamplingResult
  | _, 0 => { errorLogs := [], writtenFiles := [], exit := SamplingExit.success }
  | start, k + 1 =>
    let res := extract start
    let logs0 : List Nat := if res.1 then [] else [start]
    if fileOpenOk start then
      let rest := processGroups extract fileOpenOk (start + 1) k
      { errorLogs := logs0 ++ rest.errorLogs
        writtenFiles := (start, writeSamples res.2) :: rest.writtenFiles
        exit := rest.exit }
    else { errorLogs := logs0, writtenFiles := [], exit := SamplingExit.failure }

/-- Inputs of one sampling run.  External collaborators appear as their
results: `sfmLoadOk` is the outcome of `sfmDataIO::Load`, `nbIntrinsics` the
intrinsic count of the dataset, `estimateBracketsOk` the outcome of
`hdr::estimateBracketsFromSfmData`, `groupedViews` the produced exposure
groups, `extractSamples` the outcome of
`hdr::Sampling::extractSamplesFromImages` per group index (success flag and
the out-parameter sample list), and `fileOpenOk` whether the samples file of
a group index can be opened for writing. -/
structure SamplingInputs where
  sfmLoadOk : Bool
  nbIntrinsics : Nat
  estimateBracketsOk : Bool
  groupedViews : List (List View)
  rangeStart : Int
  rangeSize : Int
  extractSamples : Nat → Bool × List ImageSample
  fileOpenOk : Nat → Bool

/-- Shallow embedding of `aliceVision_main` of `main_LdrToHdrSampling.cpp`
(after command-line parsing): dataset load, single-intrinsic check, bracket
estimation, group-size consistency check, range selection, then the
per-group sampling loop. -/
def samplingMain (inp : SamplingInputs) : SamplingResult :=
  if inp.sfmLoadOk = false then
    { errorLogs := [], writtenFiles := [], exit := SamplingExit.failure }
  else if inp.nbIntrinsics > 1 then
    { errorLogs := [], writtenFiles := [], exit := SamplingExit.failure }
  else if inp.estimateBracketsOk = false then
    { errorLogs := [], writtenFiles := [], exit := SamplingExit.failure }
  else
    match checkGroupSizes inp.groupedViews with
    | GroupSizeCheck.noMultiBracketing =>
        { errorLogs := [], writtenFiles := [], exit := SamplingExit.success }
    | GroupSizeCheck.inconsistent =>
        { errorLogs := [], writtenFiles := [], exit := SamplingExit.failure }
    | GroupSizeCheck.proceed _ =>
        match computeRange inp.rangeStart inp.rangeSize inp.groupedViews.length with
        | none => { errorLogs := [], writtenFiles := [], exit := SamplingExit.failure }
        | some (start, size) => processGroups inp.extractSamples inp.fileOpenOk start size

/-- A sample view used by the concrete sampling runs below. -/
def viewA : View :=
  { imagePath := "IMG_0001.jpg", exposure := 2 }

/-- A sampling run with two 2-bracket groups whose sample extraction always
fails, while every samples file can be opened. -/
def samplingFailingGroupInput : SamplingInputs :=
  { sfmLoadOk := true
    nbIntrinsics := 1
    estimateBracketsOk := true
    groupedViews := [[viewA, viewA], [viewA, viewA]]
    rangeStart := -1
    rangeSize := 1
    extractSamples := fun _ => (false, [])
    fileOpenOk := fun _ => true }

/-- A sampling run whose two exposure groups have different bracket
counts. -/
def samplingInconsistentInput : SamplingInputs :=
  { sfmLoadOk := true
    nbIntrinsics := 1
    estimateBracketsOk := true
    groupedViews := [[viewA], [viewA, viewA]]
    rangeStart := -1
    rangeSize := 1
    extractSamples := fun _ => (true, [])
    fileOpenOk := fun _ => true }

/-- A sampling run with three 2-bracket groups and the range selector
starting at group 1 with an overshooting size. -/
def samplingRangeInput : SamplingInputs :=
  { sfmLoadOk := true
    nbIntrinsics := 1
    estimateBracketsOk := true
    groupedViews := [[viewA, viewA], [viewA, viewA], [viewA, viewA]]
    rangeStart := 1
    rangeSize := 5
    extractSamples := fun _ => (true, [{ x := 3, y := 4, descriptions := [] }])
    fileOpenOk := fun _ => true }

/-- A sampling run in which every exposure group holds exactly one
bracket. -/
def samplingSingleBracketInput : SamplingInputs :=
  { sfmLoadOk := true
    nbIntrinsics := 1
    estimateBracketsOk := true
    groupedViews := [[viewA], [viewA]]
    rangeStart := -1
    rangeSize := 1
    extractSamples := fun _ => (true, [])
    fileOpenOk := fun _ => true }

/-- An observation of a landmark: projected 2D position, feature id
(`UndefinedIndexT` modelled as `none`) and scale (`unknownScale`, 0). -/
structure Observation where
  proj : Int × Int
  featureId : Option Nat
  scale : Int
deriving DecidableEq, Repr

/-- A landmark of the dense point cloud: 3D position and observations keyed
by view id (`std::map` modelled as an association list with unique keys). -/
structure Landmark where
  pt : Point3d
  observations : List (Nat × Observation)
deriving DecidableEq, Repr

/-- Map-style insertion into an association list: overwrite the value of an
existing key, append a new key. -/
def mapInsert {A : Type} (m : List (Nat × A)) (k : Nat) (v : A) : List (Nat × A) :=
  match m with
  | [] => [(k, v)]
  | (k0, v0) :: rest =>
      if k0 = k then (k, v) :: rest else (k0, v0) :: mapInsert rest k v

/-- Map-style lookup in an association list. -/
def assocFind {A : Type} (k : Nat) : List (Nat × A) → Option A
  | [] => none
  | (k0, v0) :: rest => if k0 = k then some v0 else assocFind k rest

/-- The dataset context used by `createDenseSfMData`: `viewIdOfCam` is
`mp.getViewId` composed with `view.getViewId()` (the view id of a camera
index), and `project` the external re-projection
`intrinsic->project(pose, point, applyDistortion)` of a camera index. -/
structure SfMConfig where
  viewIdOfCam : Nat → Nat
  project : Nat → Point3d → Bool → Int × Int

/-- The observation map built by the inner loop of `createDenseSfMData`:
for each camera of the visibility set, store under the camera view id the
re-projection of the point with distortion applied (`true`), an undefined
feature id and unknown scale. -/
def buildObservations (cfg : SfMConfig) (pt : Point3d) (cams : List Nat) :
    List (Nat × Observation) :=
  cams.foldl
    (fun obs cam =>
      mapInsert obs (cfg.viewIdOfCam cam)
        { proj := cfg.project cam pt true, featureId := none, scale := 0 })
    []

/-- Shallow embedding of `createDenseSfMData` of `main_meshing.cpp`: the
landmarks of the output dataset, one per vertex index, positioned at the
vertex, with observations from the vertex visibility set (empty if the
visibility set is empty). -/
def createDenseSfMData (cfg : SfMConfig) (vertices : List Point3d)
    (ptsCams : List (List Nat)) : List (Nat × Landmark) :=
  (List.range vertices.length).map (fun i =>
    (i, { pt := vertices.getD i (0, 0, 0)
          observations :=
            if (ptsCams.getD i []).isEmpty then []
            else buildObservations cfg (vertices.getD i (0, 0, 0)) (ptsCams.getD i []) }))

/-- Shallow embedding of `removeLandmarksWithoutObservations` of
`main_meshing.cpp`: erase every landmark whose observation map is empty. -/
def removeLandmarksWithoutObservations (landmarks : List (Nat × Landmark)) :
    List (Nat × Landmark) :=
  landmarks.filter (fun kv => ! kv.2.observations.isEmpty)

/-- A concrete dataset context for the dense-SfM witness run. -/
def denseCfg : SfMConfig :=
  { viewIdOfCam := fun cam => cam + 10
    project := fun cam _ applyDistortion => ((cam : Int), if applyDistortion then 1 else 0) }

/-- Modelled from the spec: the effective random seed of the reconstruction
core — the seed parameter, except that 0 selects a fresh random seed
("0 to use a random seed"). -/
def effectiveSeed (seed freshSeed : Nat) : Nat :=
  if seed = 0 then freshSeed else seed

/-- Modelled from the spec: the reconstruction core (point fusion,
tetrahedralization, visibility scoring, graph cut, surface extraction) is
not part of the sources under verification; per the spec all its operations
are deterministic given identical inputs and seed, so it is modelled as a
pure function `core` of the inputs and the effective seed, producing the
cell labeling (true = full) and the mesh. -/
def pipelineRun (core : MeshingInputs → Nat → List Bool × Mesh)
    (inp : MeshingInputs) (seed freshSeed : Nat) : List Bool × Mesh :=
  core inp (effectiveSeed seed freshSeed)

/-- A concrete seed-dependent reconstruction core used by the determinism
witness. -/
def parityCore : MeshingInputs → Nat → List Bool × Mesh :=
  fun _ s => ([decide (s % 2 = 0)], { pts := [], tris := [] })

/-- C1: for every run of the meshing pipeline that reaches output generation
with a null mesh, a mesh with no vertices, or a mesh with no triangles, the
run fails with the domain error "No valid mesh was generated." and neither
the dense SfMData file nor the OBJ mesh file is written (nor, unless the raw
debug dump was requested, any other file). -/
theorem C1_no_valid_mesh_error (inp : MeshingInputs)
    (hre : inp.repartitionMode = ERepartitionMode.eRepartitionMultiResolution)
    (hpa : inp.partitioningMode = EPartitioningMode.ePartitioningSingleBlock)
    (hload : inp.sfmLoadOk = true)
    (hcams : (if inp.depthMapsFolder.isEmpty then List.range inp.nbCameras
              else inp.camsIntersectingHexah) ≠ [])
    (hmesh : inp.meshResult = none ∨
             ∃ m, inp.meshResult = some m ∧ (m.pts = [] ∨ m.tris = [])) :
    (meshingMain inp).2 = some MeshingError.noValidMeshGenerated ∧
    MeshingError.thrownMessage MeshingError.noValidMeshGenerated =
      some ("No valid mesh was generated.") ∧
    MeshingEvent.writeDenseSfMData ∉ (meshingMain inp).1 ∧
    MeshingEvent.writeObjMesh ∉ (meshingMain inp).1 ∧
    (inp.saveRawDensePointCloud = false →
      MeshingEvent.writeRawDensePointCloud ∉ (meshingMain inp).1) := by
  rcases hmesh with hnone | ⟨m, hm, hempty⟩
  · by_cases hd : inp.depthMapsFolder.isEmpty <;>
      by_cases hraw : inp.saveRawDensePointCloud <;>
        simp_all [meshingMain, MeshingError.thrownMessage]
  · rcases hempty with hp | ht <;>
      by_cases hd : inp.depthMapsFolder.isEmpty <;>
        by_cases hraw : inp.saveRawDensePointCloud <;>
          simp_all [meshingMain, MeshingError.thrownMessage]

/-- C1 witness: a concrete run reaching output generation with a mesh that
has vertices but no triangles fails with "No valid mesh was generated."
and writes no output file. -/
theorem C1_no_valid_mesh_error_witness :
    (meshingMain meshingEmptyTrisInput).2 = some MeshingError.noValidMeshGenerated ∧
    MeshingError.thrownMessage MeshingError.noValidMeshGenerated =
      some ("No valid mesh was generated.") ∧
    MeshingEvent.writeDenseSfMData ∉ (meshingMain meshingEmptyTrisInput).1 ∧
    MeshingEvent.writeObjMesh ∉ (meshingMain meshingEmptyTrisInput).1 ∧
    (meshingEmptyTrisInput.saveRawDensePointCloud = false →
      MeshingEvent.writeRawDensePointCloud ∉ (meshingMain meshingEmptyTrisInput).1) := by
  exact C1_no_valid_mesh_error meshingEmptyTrisInput rfl rfl rfl (by decide)
    (Or.inr ⟨{ pts := [(0, 0, 0)], tris := [] }, rfl, Or.inr rfl⟩)

/-- C2 counterexample: with a depth-maps folder given and partitioning mode
auto, the run does fail with the configuration error, but only after the
dataset has been read and the output directory created, contradicting the
claim that it fails before reading the dataset or creating directories. -/
theorem C2_fail_fast_counterexample :
    (meshingMain meshingAutoInput).2 = some MeshingError.partitioningAutoNotImplemented ∧
    MeshingEvent.readSfmData ∈ (meshingMain meshingAutoInput).1 ∧
    MeshingEvent.createOutDirectory ∈ (meshingMain meshingAutoInput).1 := by
  decide

/-- C2 amended: with partitioning mode auto, or an undefined partitioning or
repartition mode, the run never reaches bounding-volume estimation and never
writes any file.  When the depth-maps folder is empty it fails immediately —
before reading the dataset or creating the output directory — with the
invalid-input-options configuration error; when a depth-maps folder is given
and the dataset is readable, the dataset is read and the output directory
created first, and only then does the run throw a configuration error (an
unreadable dataset instead fails with that input error, likewise before any
reconstruction step). -/
theorem C2_config_error_before_reconstruction (inp : MeshingInputs)
    (h : inp.partitioningMode = EPartitioningMode.ePartitioningAuto ∨
         inp.partitioningMode = EPartitioningMode.ePartitioningUndefined ∨
         inp.repartitionMode = ERepartitionMode.eRepartitionUndefined) :
    (MeshingEvent.estimateSpace ∉ (meshingMain inp).1 ∧
     MeshingEvent.writeRawDensePointCloud ∉ (meshingMain inp).1 ∧
     MeshingEvent.writeDenseSfMData ∉ (meshingMain inp).1 ∧
     MeshingEvent.writeObjMesh ∉ (meshingMain inp).1) ∧
    (inp.depthMapsFolder.isEmpty = true →
      meshingMain inp = ([], some MeshingError.invalidInputOptions) ∧
      MeshingError.isConfigurationError MeshingError.invalidInputOptions = true) ∧
    (inp.depthMapsFolder.isEmpty = false → inp.sfmLoadOk = true →
      ∃ e, meshingMain inp =
          ([MeshingEvent.readSfmData, MeshingEvent.createOutDirectory], some e) ∧
        MeshingError.isConfigurationError e = true) := by
  refine ⟨?_, ?_, ?_⟩
  · cases hre : inp.repartitionMode <;>
      cases hpa : inp.partitioningMode <;>
        by_cases hd : inp.depthMapsFolder.isEmpty <;>
          by_cases hl : inp.sfmLoadOk <;>
            simp_all [meshingMain]
  · intro hd
    rcases h with h | h | h <;>
      exact ⟨by simp_all [meshingMain], rfl⟩
  · intro hd hl
    rcases h with h | h | h
    · cases hre : inp.repartitionMode
      · exact ⟨MeshingError.repartitionModeNotDefined, by simp_all [meshingMain], rfl⟩
      · exact ⟨MeshingError.partitioningAutoNotImplemented, by simp_all [meshingMain], rfl⟩
    · cases hre : inp.repartitionMode
      · exact ⟨MeshingError.repartitionModeNotDefined, by simp_all [meshingMain], rfl⟩
      · exact ⟨MeshingError.partitioningModeNotDefined, by simp_all [meshingMain], rfl⟩
    · exact ⟨MeshingError.repartitionModeNotDefined, by simp_all [meshingMain], rfl⟩

/-- C2 amended witness: the concrete auto-partitioning run with a depth-maps
folder reads the dataset and creates the output directory, then throws a
configuration error, having reached no reconstruction step and written no
file. -/
theorem C2_config_error_before_reconstruction_witness :
    (MeshingEvent.estimateSpace ∉ (meshingMain meshingAutoInput).1 ∧
     MeshingEvent.writeRawDensePointCloud ∉ (meshingMain meshingAutoInput).1 ∧
     MeshingEvent.writeDenseSfMData ∉ (meshingMain meshingAutoInput).1 ∧
     MeshingEvent.writeObjMesh ∉ (meshingMain meshingAutoInput).1) ∧
    (meshingAutoInput.depthMapsFolder.isEmpty = true →
      meshingMain meshingAutoInput = ([], some MeshingError.invalidInputOptions) ∧
      MeshingError.isConfigurationError MeshingError.invalidInputOptions = true) ∧
    (meshingAutoInput.depthMapsFolder.isEmpty = false →
      meshingAutoInput.sfmLoadOk = true →
      ∃ e, meshingMain meshingAutoInput =
          ([MeshingEvent.readSfmData, MeshingEvent.createOutDirectory], some e) ∧
        MeshingError.isConfigurationError e = true) :=
  C2_config_error_before_reconstruction meshingAutoInput (Or.inl (by decide))

/-- C7 counterexample: in SfM-only mode (no depth-maps folder) with one
camera that does not intersect the estimated hexahedron, the set of
intersecting cameras is empty yet the run succeeds and writes the mesh,
contradicting the claim that every input with an empty intersecting set
fails. -/
theorem C7_no_camera_counterexample :
    meshingSfmNoIntersectInput.camsIntersectingHexah = [] ∧
    (meshingMain meshingSfmNoIntersectInput).2 = none ∧
    MeshingEvent.writeObjMesh ∈ (meshingMain meshingSfmNoIntersectInput).1 := by
  decide

/-- C7 amended: on the single-block multi-resolution path with a readable
dataset, the run throws "No camera to make the reconstruction" exactly when
the camera list is empty — which means no camera intersects the estimated
hexahedron when meshing from depth maps, but means the dataset has zero
cameras when meshing from SfM only (there the intersection test is not
consulted); on that failure nothing has been written. -/
theorem C7_no_camera_error (inp : MeshingInputs)
    (hre : inp.repartitionMode = ERepartitionMode.eRepartitionMultiResolution)
    (hpa : inp.partitioningMode = EPartitioningMode.ePartitioningSingleBlock)
    (hload : inp.sfmLoadOk = true) :
    ((meshingMain inp).2 = some MeshingError.noCameraToMakeReconstruction ↔
      (if inp.depthMapsFolder.isEmpty then inp.nbCameras = 0
       else inp.camsIntersectingHexah = [])) ∧
    ((if inp.depthMapsFolder.isEmpty then inp.nbCameras = 0
      else inp.camsIntersectingHexah = []) →
      (meshingMain inp).1 = [MeshingEvent.readSfmData, MeshingEvent.createOutDirectory,
                             MeshingEvent.estimateSpace]) := by
  by_cases hd : inp.depthMapsFolder.isEmpty
  all_goals by_cases hraw : inp.saveRawDensePointCloud
  all_goals cases hm : inp.meshResult
  all_goals by_cases hpc : inp.ptsCamsResult = []
  all_goals simp_all [meshingMain, List.range_eq_nil]
  all_goals (split <;> simp_all)
  all_goals (split <;> simp_all)

/-- C7 amended witness: a depth-maps run whose intersecting-camera set is
empty throws the no-camera error with nothing written. -/
theorem C7_no_camera_error_witness :
    ((meshingMain meshingDepthNoCamInput).2 = some MeshingError.noCameraToMakeReconstruction ↔
      (if meshingDepthNoCamInput.depthMapsFolder.isEmpty then meshingDepthNoCamInput.nbCameras = 0
       else meshingDepthNoCamInput.camsIntersectingHexah = [])) ∧
    ((if meshingDepthNoCamInput.depthMapsFolder.isEmpty then meshingDepthNoCamInput.nbCameras = 0
      else meshingDepthNoCamInput.camsIntersectingHexah = []) →
      (meshingMain meshingDepthNoCamInput).1 =
        [MeshingEvent.readSfmData, MeshingEvent.createOutDirectory,
         MeshingEvent.estimateSpace]) := by
  exact C7_no_camera_error meshingDepthNoCamInput rfl rfl rfl

/-- A nonempty duplicate-free list of naturals whose members all equal `n`
is exactly `[n]`. -/
theorem nodupAllEqSingleton {l : List Nat} {n : Nat} (hnd : l.Nodup) (hne : l ≠ [])
    (h : ∀ x ∈ l, x = n) : l = [n] := by
  cases l with
  | nil => exact absurd rfl hne
  | cons a t =>
    have ha : a = n := h a (List.mem_cons_self a t)
    cases t with
    | nil => rw [ha]
    | cons b t2 =>
      have hb : b = n := h b (by simp)
      rw [List.nodup_cons] at hnd
      exact absurd (by simp [ha, hb]) hnd.1

/-- When every group has exactly one bracket (and there is at least one
group), the size check reports no multi-bracketing. -/
theorem checkGroupSizes_all_one (groups : List (List View)) (hne : groups ≠ [])
    (h : ∀ g ∈ groups, g.length = 1) :
    checkGroupSizes groups = GroupSizeCheck.noMultiBracketing := by
  have hd : (groups.map List.length).dedup = [1] := by
    apply nodupAllEqSingleton (List.nodup_dedup _)
    · rw [Ne, List.dedup_eq_nil]
      simpa using hne
    · intro x hx
      rw [List.mem_dedup] at hx
      obtain ⟨g, hg, hgx⟩ := List.mem_map.mp hx
      rw [← hgx]
      exact h g hg
  unfold checkGroupSizes
  rw [hd]
  rfl

/-- Two groups of different sizes make the size check fail. -/
theorem checkGroupSizes_inconsistent (groups : List (List View)) (g1 g2 : List View)
    (h1 : g1 ∈ groups) (h2 : g2 ∈ groups) (hne : g1.length ≠ g2.length) :
    checkGroupSizes groups = GroupSizeCheck.inconsistent := by
  have hm1 : g1.length ∈ (groups.map List.length).dedup :=
    List.mem_dedup.mpr (List.mem_map_of_mem List.length h1)
  have hm2 : g2.length ∈ (groups.map List.length).dedup :=
    List.mem_dedup.mpr (List.mem_map_of_mem List.length h2)
  unfold checkGroupSizes
  cases hd : (groups.map List.length).dedup with
  | nil => rfl
  | cons a t =>
    cases t with
    | nil =>
      rw [hd] at hm1 hm2
      simp only [List.mem_singleton] at hm1 hm2
      exact absurd (hm1.trans hm2.symm) hne
    | cons b t2 => rfl

/-- Range selection with the default start selects every group. -/
theorem computeRange_all (rangeSize : Int) (nbGroups : Nat) :
    computeRange (-1) rangeSize nbGroups = some (0, nbGroups) := by
  simp [computeRange]

/-- Range selection with a start inside the group count and a nonnegative
size clamps an overshooting size. -/
theorem computeRange_clamped (rangeStart rangeSize : Int) (nbGroups : Nat)
    (h0 : 0 ≤ rangeStart) (h1 : rangeStart ≤ (nbGroups : Int)) (h2 : 0 ≤ rangeSize) :
    computeRange rangeStart rangeSize nbGroups =
      some (rangeStart.toNat, min rangeSize.toNat (nbGroups - rangeStart.toNat)) := by
  have hne : rangeStart ≠ -1 := by omega
  unfold computeRange
  rw [if_pos hne, if_neg (by omega : ¬(rangeStart < 0 ∨ rangeSize < 0 ∨ rangeStart > (nbGroups : Int)))]
  by_cases hc : rangeStart + rangeSize > (nbGroups : Int)
  · rw [if_pos hc]
    exact congrArg (fun z => some (rangeStart.toNat, z)) (by omega)
  · rw [if_neg hc]
    exact congrArg (fun z => some (rangeStart.toNat, z)) (by omega)

/-- Range selection rejects a start beyond the group count and a negative
size. -/
theorem computeRange_invalid (rangeStart rangeSize : Int) (nbGroups : Nat)
    (h : rangeStart > (nbGroups : Int) ∨ (0 ≤ rangeStart ∧ rangeSize < 0)) :
    computeRange rangeStart rangeSize nbGroups = none := by
  have hne : rangeStart ≠ -1 := by omega
  unfold computeRange
  rw [if_pos hne, if_pos (by omega : rangeStart < 0 ∨ rangeSize < 0 ∨ rangeStart > (nbGroups : Int))]

/-- When every samples file can be opened, the group loop writes one file
per group index of the range, in order. -/
theorem processGroups_files (extract : Nat → Bool × List ImageSample)
    (fop : Nat → Bool) (hop : ∀ i, fop i = true) :
    ∀ (size start : Nat),
      (processGroups extract fop start size).writtenFiles =
        (List.range' start size).map (fun i => (i, writeSamples (extract i).2)) := by
  intro size
  induction size with
  | zero => intro start; rfl
  | succ k ih =>
    intro start
    simp [processGroups, hop start, List.range'_succ, ih (start + 1)]

/-- When every samples file can be opened, the group loop succeeds. -/
theorem processGroups_exit (extract : Nat → Bool × List ImageSample)
    (fop : Nat → Bool) (hop : ∀ i, fop i = true) :
    ∀ (size start : Nat),
      (processGroups extract fop start size).exit = SamplingExit.success := by
  intro size
  induction size with
  | zero => intro start; rfl
  | succ k ih =>
    intro start
    simp [processGroups, hop start, ih (start + 1)]

/-- When every samples file can be opened, the logged errors are exactly the
range indices whose extraction failed. -/
theorem processGroups_logs (extract : Nat → Bool × List ImageSample)
    (fop : Nat → Bool) (hop : ∀ i, fop i = true) :
    ∀ (size start : Nat),
      (processGroups extract fop start size).errorLogs =
        (List.range' start size).filter (fun i => ! (extract i).1) := by
  intro size
  induction size with
  | zero => intro start; rfl
  | succ k ih =>
    intro start
    by_cases hres : (extract start).1 <;>
      simp [processGroups, hop start, List.range'_succ, List.filter_cons, hres, ih (start + 1)]

/-- Reduction of the sampling driver to the group loop once all the checks
pass. -/
theorem samplingMain_proceed (inp : SamplingInputs)
    (hload : inp.sfmLoadOk = true) (hintr : inp.nbIntrinsics ≤ 1)
    (hbr : inp.estimateBracketsOk = true) (n : Nat)
    (hck : checkGroupSizes inp.groupedViews = GroupSizeCheck.proceed n)
    (start size : Nat)
    (hrange : computeRange inp.rangeStart inp.rangeSize inp.groupedViews.length =
      some (start, size)) :
    samplingMain inp = processGroups inp.extractSamples inp.fileOpenOk start size := by
  unfold samplingMain
  rw [hload, hbr, hck, hrange]
  simp only [if_neg (by simp : ¬(true = false))]
  rw [if_neg (by omega : ¬ inp.nbIntrinsics > 1)]

/-- Reduction of the sampling driver to a bare failure when the checks pass
but the range is invalid. -/
theorem samplingMain_badRange (inp : SamplingInputs)
    (hload : inp.sfmLoadOk = true) (hintr : inp.nbIntrinsics ≤ 1)
    (hbr : inp.estimateBracketsOk = true) (n : Nat)
    (hck : checkGroupSizes inp.groupedViews = GroupSizeCheck.proceed n)
    (hrange : computeRange inp.rangeStart inp.rangeSize inp.groupedViews.length = none) :
    samplingMain inp = { errorLogs := [], writtenFiles := [], exit := SamplingExit.failure } := by
  unfold samplingMain
  rw [hload, hbr, hck, hrange]
  simp only [if_neg (by simp : ¬(true = false))]
  rw [if_neg (by omega : ¬ inp.nbIntrinsics > 1)]

/-- C5: exposure groups with inconsistent bracket counts make the sampling
run fail with a non-zero status before any samples file is written. -/
theorem C5_inconsistent_brackets_failure (inp : SamplingInputs)
    (hload : inp.sfmLoadOk = true) (hintr : inp.nbIntrinsics ≤ 1)
    (hbr : inp.estimateBracketsOk = true)
    (g1 g2 : List View) (h1 : g1 ∈ inp.groupedViews) (h2 : g2 ∈ inp.groupedViews)
    (hne : g1.length ≠ g2.length) :
    (samplingMain inp).exit = SamplingExit.failure ∧
    (samplingMain inp).writtenFiles = [] := by
  have hck := checkGroupSizes_inconsistent inp.groupedViews g1 g2 h1 h2 hne
  unfold samplingMain
  rw [hload, hbr, hck]
  simp only [if_neg (by simp : ¬(true = false))]
  rw [if_neg (by omega : ¬ inp.nbIntrinsics > 1)]
  exact ⟨rfl, rfl⟩

/-- C5 witness: a concrete run with a 1-bracket group and a 2-bracket group
fails without writing anything. -/
theorem C5_inconsistent_brackets_failure_witness :
    (samplingMain samplingInconsistentInput).exit = SamplingExit.failure ∧
    (samplingMain samplingInconsistentInput).writtenFiles = [] := by
  exact C5_inconsistent_brackets_failure samplingInconsistentInput rfl (by decide) rfl
    [viewA] [viewA, viewA] (by simp [samplingInconsistentInput]) (by simp [samplingInconsistentInput])
    (by decide)

/-- C10: when every exposure group holds exactly one bracket, the sampling
run exits successfully right after grouping, writing no samples file. -/
theorem C10_no_multibracketing_success (inp : SamplingInputs)
    (hload : inp.sfmLoadOk = true) (hintr : inp.nbIntrinsics ≤ 1)
    (hbr : inp.estimateBracketsOk = true)
    (hne : inp.groupedViews ≠ [])
    (hone : ∀ g ∈ inp.groupedViews, g.length = 1) :
    samplingMain inp =
      { errorLogs := [], writtenFiles := [], exit := SamplingExit.success } := by
  have hck := checkGroupSizes_all_one inp.groupedViews hne hone
  unfold samplingMain
  rw [hload, hbr, hck]
  simp only [if_neg (by simp : ¬(true = false))]
  rw [if_neg (by omega : ¬ inp.nbIntrinsics > 1)]

/-- C10 witness: two single-bracket groups give immediate success with no
output. -/
theorem C10_no_multibracketing_success_witness :
    samplingMain samplingSingleBracketInput =
      { errorLogs := [], writtenFiles := [], exit := SamplingExit.success } := by
  exact C10_no_multibracketing_success samplingSingleBracketInput rfl (by decide) rfl
    (by simp [samplingSingleBracketInput]) (by simp [samplingSingleBracketInput])

/-- C9: with all checks passing, a default range start selects every group;
a start inside the group count with nonnegative size processes exactly
min(size, count - start) groups from the start index (overshoot clamped);
and a start beyond the group count or a negative size fails with non-zero
status before processing any group. -/
theorem C9_range_semantics (inp : SamplingInputs)
    (hload : inp.sfmLoadOk = true) (hintr : inp.nbIntrinsics ≤ 1)
    (hbr : inp.estimateBracketsOk = true) (n : Nat)
    (hck : checkGroupSizes inp.groupedViews = GroupSizeCheck.proceed n)
    (hopen : ∀ i, inp.fileOpenOk i = true) :
    (inp.rangeStart = -1 →
      (samplingMain inp).writtenFiles.map Prod.fst = List.range inp.groupedViews.length ∧
      (samplingMain inp).exit = SamplingExit.success) ∧
    (0 ≤ inp.rangeStart → inp.rangeStart ≤ (inp.groupedViews.length : Int) →
      0 ≤ inp.rangeSize →
      (samplingMain inp).writtenFiles.map Prod.fst =
        List.range' inp.rangeStart.toNat
          (min inp.rangeSize.toNat (inp.groupedViews.length - inp.rangeStart.toNat)) ∧
      (samplingMain inp).exit = SamplingExit.success) ∧
    ((inp.rangeStart > (inp.groupedViews.length : Int) ∨
        (0 ≤ inp.rangeStart ∧ inp.rangeSize < 0)) →
      samplingMain inp =
        { errorLogs := [], writtenFiles := [], exit := SamplingExit.failure }) := by
  refine ⟨?_, ?_, ?_⟩
  · intro hm1
    rw [samplingMain_proceed inp hload hintr hbr n hck 0 inp.groupedViews.length
        (by rw [hm1]; exact computeRange_all _ _)]
    refine ⟨?_, processGroups_exit _ _ hopen _ _⟩
    rw [processGroups_files _ _ hopen, List.map_map]
    rw [show (Prod.fst ∘ fun i => (i, writeSamples (inp.extractSamples i).2)) = id from rfl]
    rw [List.map_id]
    exact (List.range_eq_range' _).symm
  · intro h0 h1 h2
    rw [samplingMain_proceed inp hload hintr hbr n hck _ _
        (computeRange_clamped _ _ _ h0 h1 h2)]
    refine ⟨?_, processGroups_exit _ _ hopen _ _⟩
    rw [processGroups_files _ _ hopen, List.map_map]
    rw [show (Prod.fst ∘ fun i => (i, writeSamples (inp.extractSamples i).2)) = id from rfl]
    rw [List.map_id]
  · intro hbad
    exact samplingMain_badRange inp hload hintr hbr n hck (computeRange_invalid _ _ _ hbad)

/-- C9 witness: three 2-bracket groups with start 1 and overshooting size 5
process exactly groups 1 and 2. -/
theorem C9_range_semantics_witness :
    (samplingRangeInput.rangeStart = -1 →
      (samplingMain samplingRangeInput).writtenFiles.map Prod.fst =
        List.range samplingRangeInput.groupedViews.length ∧
      (samplingMain samplingRangeInput).exit = SamplingExit.success) ∧
    (0 ≤ samplingRangeInput.rangeStart →
      samplingRangeInput.rangeStart ≤ (samplingRangeInput.groupedViews.length : Int) →
      0 ≤ samplingRangeInput.rangeSize →
      (samplingMain samplingRangeInput).writtenFiles.map Prod.fst =
        List.range' samplingRangeInput.rangeStart.toNat
          (min samplingRangeInput.rangeSize.toNat
            (samplingRangeInput.groupedViews.length - samplingRangeInput.rangeStart.toNat)) ∧
      (samplingMain samplingRangeInput).exit = SamplingExit.success) ∧
    ((samplingRangeInput.rangeStart > (samplingRangeInput.groupedViews.length : Int) ∨
        (0 ≤ samplingRangeInput.rangeStart ∧ samplingRangeInput.rangeSize < 0)) →
      samplingMain samplingRangeInput =
        { errorLogs := [], writtenFiles := [], exit := SamplingExit.failure }) := by
  exact C9_range_semantics samplingRangeInput rfl (by decide) rfl 2 (by decide)
    (fun i => rfl)

/-- C3 counterexample: a batch of two groups whose sample extraction fails
on group 0 — the failure is logged and processing continues, but group 0's
samples file is written all the same (the claim says it is skipped). -/
theorem C3_skip_output_counterexample :
    (samplingFailingGroupInput.extractSamples 0).1 = false ∧
    0 ∈ (samplingMain samplingFailingGroupInput).errorLogs ∧
    (samplingMain samplingFailingGroupInput).writtenFiles.map Prod.fst = [0, 1] ∧
    (samplingMain samplingFailingGroupInput).exit = SamplingExit.success := by
  decide

/-- C3 amended: a sample-extraction failure in one group of the range is
logged and processing of the remaining groups continues, but the failing
group's output file is written anyway (with however many records were
extracted), not skipped. -/
theorem C3_log_write_continue (inp : SamplingInputs)
    (hload : inp.sfmLoadOk = true) (hintr : inp.nbIntrinsics ≤ 1)
    (hbr : inp.estimateBracketsOk = true) (n : Nat)
    (hck : checkGroupSizes inp.groupedViews = GroupSizeCheck.proceed n)
    (start size : Nat)
    (hrange : computeRange inp.rangeStart inp.rangeSize inp.groupedViews.length =
      some (start, size))
    (hopen : ∀ i, inp.fileOpenOk i = true)
    (i : Nat) (hi1 : start ≤ i) (hi2 : i < start + size)
    (hfail : (inp.extractSamples i).1 = false) :
    i ∈ (samplingMain inp).errorLogs ∧
    (i, writeSamples (inp.extractSamples i).2) ∈ (samplingMain inp).writtenFiles ∧
    (samplingMain inp).writtenFiles.map Prod.fst = List.range' start size ∧
    (samplingMain inp).exit = SamplingExit.success := by
  rw [samplingMain_proceed inp hload hintr hbr n hck start size hrange]
  refine ⟨?_, ?_, ?_, processGroups_exit _ _ hopen _ _⟩
  · rw [processGroups_logs _ _ hopen]
    refine List.mem_filter.mpr ⟨List.mem_range'_1.mpr ⟨hi1, hi2⟩, ?_⟩
    rw [hfail]
    rfl
  · rw [processGroups_files _ _ hopen]
    exact List.mem_map.mpr ⟨i, List.mem_range'_1.mpr ⟨hi1, hi2⟩, rfl⟩
  · rw [processGroups_files _ _ hopen, List.map_map]
    rw [show (Prod.fst ∘ fun i => (i, writeSamples (inp.extractSamples i).2)) = id from rfl]
    rw [List.map_id]

/-- C3 amended witness: in the two-group failing batch, group 0's failure is
logged, its file is still written, and both groups are processed with a
successful exit. -/
theorem C3_log_write_continue_witness :
    0 ∈ (samplingMain samplingFailingGroupInput).errorLogs ∧
    (0, writeSamples (samplingFailingGroupInput.extractSamples 0).2) ∈
      (samplingMain samplingFailingGroupInput).writtenFiles ∧
    (samplingMain samplingFailingGroupInput).writtenFiles.map Prod.fst = List.range' 0 2 ∧
    (samplingMain samplingFailingGroupInput).exit = SamplingExit.success := by
  exact C3_log_write_continue samplingFailingGroupInput rfl (by decide) rfl 2 (by decide)
    0 2 (by decide) (fun i => rfl) 0 (by decide) (by decide) rfl

/-- Deserializing a run of per-camera statistics records after serialization
recovers the records and leaves the rest of the stream. -/
theorem readDescriptions_write (ds : List PixelDescription) (rest : List Int) :
    readDescriptions ds.length (ds.flatMap writeDescription ++ rest) = some (ds, rest) := by
  induction ds with
  | nil => rfl
  | cons d t ih =>
    have hstream : (d :: t).flatMap writeDescription ++ rest =
        d.exposure :: d.mean :: d.variance :: (t.flatMap writeDescription ++ rest) := by
      simp [writeDescription]
    rw [List.length_cons, hstream]
    simp only [readDescriptions]
    rw [ih]

/-- Deserializing one sample record after serialization recovers the sample
and leaves the rest of the stream. -/
theorem readSample_write (s : ImageSample) (rest : List Int) :
    readSample (writeSample s ++ rest) = some (s, rest) := by
  unfold writeSample readSample
  simp only [List.cons_append]
  rw [if_neg (by omega : ¬ ((s.descriptions.length : Int) < 0))]
  rw [Int.toNat_natCast, readDescriptions_write]

/-- Deserializing a run of sample records after serialization recovers the
records. -/
theorem readSamplesAux_write (l : List ImageSample) (rest : List Int) :
    readSamplesAux l.length (l.flatMap writeSample ++ rest) = some (l, rest) := by
  induction l with
  | nil => rfl
  | cons s t ih =>
    have hstream : (s :: t).flatMap writeSample ++ rest =
        writeSample s ++ (t.flatMap writeSample ++ rest) := by
      simp
    rw [List.length_cons, hstream]
    simp only [readSamplesAux, readSample_write, ih]

/-- C6: a persisted samples file is the record count followed by one
fixed-format record per sample, and reading a written sample set back yields
the identical sequence of records. -/
theorem C6_samples_roundtrip (l : List ImageSample) :
    writeSamples l = (l.length : Int) :: l.flatMap writeSample ∧
    readSamples (writeSamples l) = some l := by
  refine ⟨rfl, ?_⟩
  have h := readSamplesAux_write l []
  rw [List.append_nil] at h
  unfold writeSamples
  simp only [readSamples]
  rw [if_neg (by omega : ¬ ((l.length : Int) < 0))]
  rw [Int.toNat_natCast, h]

/-- Lookup after map-style insertion: the inserted key now maps to the new
value, every other key is unchanged. -/
theorem assocFind_mapInsert {A : Type} (m : List (Nat × A)) (k j : Nat) (v : A) :
    assocFind j (mapInsert m k v) = if k = j then some v else assocFind j m := by
  induction m with
  | nil => rfl
  | cons hd tl ih =>
    obtain ⟨k0, v0⟩ := hd
    by_cases h0 : k0 = k <;> by_cases h1 : k0 = j <;> by_cases h2 : k = j <;>
      simp_all [mapInsert, assocFind]

/-- A key of the map after insertion is the inserted key or an old key. -/
theorem mapInsert_keys {A : Type} (m : List (Nat × A)) (k j : Nat) (v : A) :
    j ∈ (mapInsert m k v).map Prod.fst → j = k ∨ j ∈ m.map Prod.fst := by
  induction m with
  | nil =>
    intro hj
    simp [mapInsert] at hj
    exact Or.inl hj
  | cons hd tl ih =>
    obtain ⟨k0, v0⟩ := hd
    intro hj
    by_cases h0 : k0 = k
    · subst h0
      simp only [mapInsert, if_pos rfl, List.map_cons] at hj
      rcases List.mem_cons.mp hj with h | h
      · exact Or.inl h
      · exact Or.inr (List.mem_cons_of_mem _ h)
    · simp only [mapInsert, if_neg h0, List.map_cons] at hj
      rcases List.mem_cons.mp hj with h | h
      · refine Or.inr ?_
        rw [List.map_cons, h]
        exact List.mem_cons_self _ _
      · rcases ih h with h1 | h1
        · exact Or.inl h1
        · exact Or.inr (List.mem_cons_of_mem _ h1)

/-- Map-style insertion keeps the keys duplicate-free. -/
theorem mapInsert_keys_nodup {A : Type} (m : List (Nat × A)) (k : Nat) (v : A)
    (h : (m.map Prod.fst).Nodup) : ((mapInsert m k v).map Prod.fst).Nodup := by
  induction m with
  | nil => simp [mapInsert]
  | cons hd tl ih =>
    obtain ⟨k0, v0⟩ := hd
    by_cases h0 : k0 = k
    · subst h0
      simpa [mapInsert] using h
    · simp only [List.map_cons, List.nodup_cons] at h
      simp only [mapInsert, if_neg h0, List.map_cons, List.nodup_cons]
      refine ⟨fun hmem => ?_, ih h.2⟩
      rcases mapInsert_keys tl k k0 v hmem with h1 | h1
      · exact h0 h1
      · exact h.1 h1

/-- Map-style insertion never yields an empty map. -/
theorem mapInsert_ne_nil {A : Type} (m : List (Nat × A)) (k : Nat) (v : A) :
    mapInsert m k v ≠ [] := by
  cases m with
  | nil => simp [mapInsert]
  | cons hd tl =>
    obtain ⟨k0, v0⟩ := hd
    by_cases h : k0 = k <;> simp [mapInsert, h]

/-- Folding the observation insertions over cameras whose view ids all avoid
`j` leaves the value at `j` unchanged. -/
theorem buildObs_foldl_not_mem (cfg : SfMConfig) (pt : Point3d) (cams : List Nat) (j : Nat)
    (h : ∀ c ∈ cams, cfg.viewIdOfCam c ≠ j) :
    ∀ m, assocFind j (cams.foldl (fun obs cam => mapInsert obs (cfg.viewIdOfCam cam)
      ({ proj := cfg.project cam pt true, featureId := none, scale := 0 } : Observation)) m) =
      assocFind j m := by
  induction cams with
  | nil => intro m; rfl
  | cons c rest ih =>
    intro m
    rw [List.foldl_cons]
    rw [ih (fun x hx => h x (List.mem_cons_of_mem c hx))]
    rw [assocFind_mapInsert]
    rw [if_neg (h c (List.mem_cons_self c rest))]

/-- With an injective view-id assignment, every camera of the fold ends up
with exactly its own observation under its view id. -/
theorem buildObs_foldl_mem (cfg : SfMConfig) (pt : Point3d)
    (hinj : Function.Injective cfg.viewIdOfCam) :
    ∀ (cams : List Nat), ∀ c ∈ cams, ∀ m,
      assocFind (cfg.viewIdOfCam c) (cams.foldl (fun obs cam => mapInsert obs (cfg.viewIdOfCam cam)
        ({ proj := cfg.project cam pt true, featureId := none, scale := 0 } : Observation)) m) =
      some { proj := cfg.project c pt true, featureId := none, scale := 0 } := by
  intro cams
  induction cams with
  | nil => intro c hc; exact absurd hc (List.not_mem_nil c)
  | cons c0 rest ih =>
    intro c hc m
    rw [List.foldl_cons]
    by_cases hcr : c ∈ rest
    · exact ih c hcr _
    · have hc0 : c = c0 := by
        rcases List.mem_cons.mp hc with h | h
        · exact h
        · exact absurd h hcr
      subst hc0
      have hne : ∀ x ∈ rest, cfg.viewIdOfCam x ≠ cfg.viewIdOfCam c := by
        intro x hx hEq
        exact hcr (hinj hEq ▸ hx)
      rw [buildObs_foldl_not_mem cfg pt rest (cfg.viewIdOfCam c) hne]
      rw [assocFind_mapInsert, if_pos rfl]

/-- Every value found in the fold either comes from one of the cameras or
was already in the starting map. -/
theorem buildObs_foldl_some (cfg : SfMConfig) (pt : Point3d) :
    ∀ (cams : List Nat) (m : List (Nat × Observation)) (j : Nat) (o : Observation),
      assocFind j (cams.foldl (fun obs cam => mapInsert obs (cfg.viewIdOfCam cam)
        ({ proj := cfg.project cam pt true, featureId := none, scale := 0 } : Observation)) m) = some o →
      (∃ c ∈ cams, cfg.viewIdOfCam c = j ∧
        o = { proj := cfg.project c pt true, featureId := none, scale := 0 }) ∨
      assocFind j m = some o := by
  intro cams
  induction cams with
  | nil => intro m j o h; exact Or.inr h
  | cons c0 rest ih =>
    intro m j o h
    rw [List.foldl_cons] at h
    rcases ih _ j o h with h1 | h1
    · obtain ⟨c, hc, hcj, hco⟩ := h1
      exact Or.inl ⟨c, List.mem_cons_of_mem c0 hc, hcj, hco⟩
    · rw [assocFind_mapInsert] at h1
      by_cases hj : cfg.viewIdOfCam c0 = j
      · rw [if_pos hj] at h1
        exact Or.inl ⟨c0, List.mem_cons_self c0 rest, hj, (Option.some.inj h1).symm⟩
      · rw [if_neg hj] at h1
        exact Or.inr h1

/-- The fold keeps the observation keys duplicate-free. -/
theorem buildObs_foldl_nodup (cfg : SfMConfig) (pt : Point3d) :
    ∀ (cams : List Nat) (m : List (Nat × Observation)), (m.map Prod.fst).Nodup →
      (((cams.foldl (fun obs cam => mapInsert obs (cfg.viewIdOfCam cam)
        ({ proj := cfg.project cam pt true, featureId := none, scale := 0 } : Observation)) m)).map
          Prod.fst).Nodup := by
  intro cams
  induction cams with
  | nil => intro m h; exact h
  | cons c0 rest ih =>
    intro m h
    rw [List.foldl_cons]
    exact ih _ (mapInsert_keys_nodup _ _ _ h)

/-- The fold never empties a nonempty map. -/
theorem buildObs_foldl_ne_nil (cfg : SfMConfig) (pt : Point3d) :
    ∀ (cams : List Nat) (m : List (Nat × Observation)), m ≠ [] →
      (cams.foldl (fun obs cam => mapInsert obs (cfg.viewIdOfCam cam)
        ({ proj := cfg.project cam pt true, featureId := none, scale := 0 } : Observation)) m) ≠ [] := by
  intro cams
  induction cams with
  | nil => intro m h; exact h
  | cons c0 rest ih =>
    intro m _
    rw [List.foldl_cons]
    exact ih _ (mapInsert_ne_nil _ _ _)

/-- A nonempty visibility set yields a nonempty observation map. -/
theorem buildObservations_ne_nil (cfg : SfMConfig) (pt : Point3d) (cams : List Nat)
    (hc : cams ≠ []) : buildObservations cfg pt cams ≠ [] := by
  cases cams with
  | nil => exact absurd rfl hc
  | cons c0 rest =>
    unfold buildObservations
    rw [List.foldl_cons]
    exact buildObs_foldl_ne_nil cfg pt rest _ (mapInsert_ne_nil _ _ _)

/-- Membership characterization of the dense landmark list. -/
theorem createDense_mem (cfg : SfMConfig) (vertices : List Point3d)
    (ptsCams : List (List Nat)) (i : Nat) (lm : Landmark) :
    (i, lm) ∈ createDenseSfMData cfg vertices ptsCams ↔
      i < vertices.length ∧
      lm = { pt := vertices.getD i (0, 0, 0)
             observations :=
               if (ptsCams.getD i []).isEmpty then []
               else buildObservations cfg (vertices.getD i (0, 0, 0)) (ptsCams.getD i []) } := by
  unfold createDenseSfMData
  rw [List.mem_map]
  constructor
  · rintro ⟨a, ha, heq⟩
    rw [List.mem_range] at ha
    rw [Prod.ext_iff] at heq
    obtain ⟨h1, h2⟩ := heq
    simp only at h1 h2
    subst h1
    subst h2
    exact ⟨ha, rfl⟩
  · rintro ⟨hi, rfl⟩
    exact ⟨i, List.mem_range.mpr hi, rfl⟩

/-- C4: after `createDenseSfMData` and
`removeLandmarksWithoutObservations`, every vertex with an empty visibility
set has no landmark in the dense output, and every vertex with a nonempty
visibility set has a landmark at its position whose observation map holds
exactly one observation per camera of the set, each the re-projection of the
vertex into that camera with distortion applied. -/
theorem C4_dense_observations (cfg : SfMConfig) (vertices : List Point3d)
    (ptsCams : List (List Nat)) (hinj : Function.Injective cfg.viewIdOfCam)
    (i : Nat) (hi : i < vertices.length) :
    (ptsCams.getD i [] = [] →
      ∀ lm, (i, lm) ∉
        removeLandmarksWithoutObservations (createDenseSfMData cfg vertices ptsCams)) ∧
    (ptsCams.getD i [] ≠ [] →
      ∃ lm, (i, lm) ∈
          removeLandmarksWithoutObservations (createDenseSfMData cfg vertices ptsCams) ∧
        lm.pt = vertices.getD i (0, 0, 0) ∧
        (∀ cam ∈ ptsCams.getD i [],
          assocFind (cfg.viewIdOfCam cam) lm.observations =
            some { proj := cfg.project cam (vertices.getD i (0, 0, 0)) true,
                   featureId := none, scale := 0 }) ∧
        (∀ j o, assocFind j lm.observations = some o →
          ∃ cam ∈ ptsCams.getD i [], cfg.viewIdOfCam cam = j ∧
            o = { proj := cfg.project cam (vertices.getD i (0, 0, 0)) true,
                  featureId := none, scale := 0 }) ∧
        (lm.observations.map Prod.fst).Nodup) := by
  constructor
  · intro hempty lm hmem
    unfold removeLandmarksWithoutObservations at hmem
    rw [List.mem_filter] at hmem
    obtain ⟨hmem1, hp⟩ := hmem
    rw [createDense_mem] at hmem1
    obtain ⟨_, rfl⟩ := hmem1
    rw [hempty] at hp
    simp at hp
  · intro hne
    have hie : (ptsCams.getD i []).isEmpty = false := by
      cases h : ptsCams.getD i [] with
      | nil => exact absurd h hne
      | cons a t => rfl
    refine ⟨{ pt := vertices.getD i (0, 0, 0)
              observations := buildObservations cfg (vertices.getD i (0, 0, 0))
                (ptsCams.getD i []) }, ?_, rfl, ?_, ?_, ?_⟩
    · unfold removeLandmarksWithoutObservations
      rw [List.mem_filter]
      constructor
      · rw [createDense_mem]
        refine ⟨hi, ?_⟩
        rw [hie]
        simp only [Bool.false_eq_true, if_false]
      · have hb := buildObservations_ne_nil cfg (vertices.getD i (0, 0, 0))
          (ptsCams.getD i []) hne
        cases hbb : buildObservations cfg (vertices.getD i (0, 0, 0)) (ptsCams.getD i []) with
        | nil => exact absurd hbb hb
        | cons a t => rfl
    · intro cam hcam
      exact buildObs_foldl_mem cfg _ hinj _ cam hcam []
    · intro j o h
      have h2 : assocFind j (buildObservations cfg (vertices.getD i (0, 0, 0))
          (ptsCams.getD i [])) = some o := h
      unfold buildObservations at h2
      rcases buildObs_foldl_some cfg _ _ _ j o h2 with h3 | h3
      · exact h3
      · simp [assocFind] at h3
    · exact buildObs_foldl_nodup cfg (vertices.getD i (0, 0, 0)) (ptsCams.getD i []) []
        (by simp)

/-- C4 witness: one vertex at (1,2,3) seen by camera 5 — the dense output
holds exactly the landmark at that vertex with the single re-projected
observation under view id 15. -/
theorem C4_dense_observations_witness :
    (([[5]] : List (List Nat)).getD 0 [] = [] →
      ∀ lm, (0, lm) ∉
        removeLandmarksWithoutObservations
          (createDenseSfMData denseCfg [((1 : Int), (2 : Int), (3 : Int))] [[5]])) ∧
    (([[5]] : List (List Nat)).getD 0 [] ≠ [] →
      ∃ lm, (0, lm) ∈
          removeLandmarksWithoutObservations
            (createDenseSfMData denseCfg [((1 : Int), (2 : Int), (3 : Int))] [[5]]) ∧
        lm.pt = [((1 : Int), (2 : Int), (3 : Int))].getD 0 (0, 0, 0) ∧
        (∀ cam ∈ ([[5]] : List (List Nat)).getD 0 [],
          assocFind (denseCfg.viewIdOfCam cam) lm.observations =
            some { proj := denseCfg.project cam
                     ([((1 : Int), (2 : Int), (3 : Int))].getD 0 (0, 0, 0)) true,
                   featureId := none, scale := 0 }) ∧
        (∀ j o, assocFind j lm.observations = some o →
          ∃ cam ∈ ([[5]] : List (List Nat)).getD 0 [], denseCfg.viewIdOfCam cam = j ∧
            o = { proj := denseCfg.project cam
                    ([((1 : Int), (2 : Int), (3 : Int))].getD 0 (0, 0, 0)) true,
                  featureId := none, scale := 0 }) ∧
        (lm.observations.map Prod.fst).Nodup) := by
  exact C4_dense_observations denseCfg [((1 : Int), (2 : Int), (3 : Int))] [[5]]
    (fun a b h => by simp only [denseCfg] at h; omega) 0 (by decide)

/-- C8: the pipeline outcome (cell labeling and mesh) is a deterministic
function of the inputs and the seed whenever the seed is non-zero — two
runs with identical inputs and the same non-zero seed are identical whatever
fresh random seed the system would draw — while seed 0 makes the run use the
fresh random seed. -/
theorem C8_seed_determinism (core : MeshingInputs → Nat → List Bool × Mesh)
    (inp : MeshingInputs) (seed f1 f2 : Nat) (h : seed ≠ 0) :
    pipelineRun core inp seed f1 = pipelineRun core inp seed f2 ∧
    pipelineRun core inp 0 f1 = core inp f1 := by
  constructor
  · unfold pipelineRun effectiveSeed
    rw [if_neg h, if_neg h]
  · unfold pipelineRun effectiveSeed
    rw [if_pos rfl]

/-- C8 witness: with the parity-sensitive core, the non-zero seed 3 gives
the same outcome for fresh draws 4 and 7, while seed 0 exposes the fresh
draw. -/
theorem C8_seed_determinism_witness :
    pipelineRun parityCore meshingAutoInput 3 4 = pipelineRun parityCore meshingAutoInput 3 7 ∧
    pipelineRun parityCore meshingAutoInput 0 4 = parityCore meshingAutoInput 4 := by
  exact C8_seed_determinism parityCore meshingAutoInput 3 4 7 (by decide)
